import Mathlib

/-! # MiniVault: the `/generate` pipeline of `minivault.go`

A shallow embedding of `minivault.go`: the port check, the file logger, the
LLM adapter, the request-logging middleware and the generation handler, run on
the handler chain that `main` registers for `POST /generate`.

Everything outside the program (the clock, the file system, the upstream
chat-completion service) is an explicit input `Env`; everything the program
changes (files, the operational log, the outbound calls, the HTTP response
writer) is explicit state.

The program is built on three libraries that are not part of the repository:
`gin` (handler chain, context, response writer, body binding), `encoding/json`
and the OpenAI client. The sections headed "The HTTP framework" model the part
of `gin` and `encoding/json` that `minivault.go` calls; the OpenAI client is
the `chat` input of `Env`.

Conventions of the model:
* a response body and a file are kept as the list of the JSON documents written
  to them, in order, each document standing for its `json.Marshal` text (in a
  file, followed by a newline);
* a request arrives with its whole body, given by what the decoder reads from
  it (`Body`);
* a Go `error` is its message; a Go run-time panic is the `panicked` field of
  the state.
-/

namespace MiniVault

/-! ## JSON documents -/

/-- A decoded JSON document. Numbers are `mantissa * 10 ^ (-exponent)`. Objects
keep their members in document order. -/
inductive Json where
  | null
  | bool (b : Bool)
  | num (mantissa : Int) (exponent : Nat)
  | str (s : String)
  | arr (elems : List Json)
  | obj (members : List (String × Json))

/-- Go values of type `error`, identified by their message. -/
abbrev Error := String

/-! ## Data model (`minivault.go` lines 21-32) -/

structure GenerateRequestBody where
  Prompt : String

structure GenerateResponseBody where
  Response : String

def InvalidRequestBody : String := "Invalid request body"

def SomethingWentWrong : String := "Something went wrong"

/-- The fixed text `GetLlmResponse` returns in stubbed mode (line 148). -/
def stubbedResponse : String := "I'm a local AI model, running offline!"

/-- `IsValidPort` (lines 35-41). -/
def IsValidPort (port : Int) : Bool :=
  if port > 0 && port ≤ 65535 then
    true
  else
    false

/-! ## The environment and the state of the process -/

/-- The package-level flag variables (lines 188-195), set once by `flag.Parse`. -/
structure Flags where
  portFlagVal : Int
  llmAPIBaseUrlFlagVal : String
  llmModelFlagVal : String
  logFileFlagVal : String
  testPromptFlagVal : String
  stubbedFlagVal : Bool

/-- The user message of a chat-completion request (lines 166-173). -/
structure ChatCompletionUserMessageParam where
  Content : String

/-- The request `client.Chat.Completions.New` sends (lines 150-175): the base
URL the client was built with, the model and the messages. -/
structure ChatCompletionNewParams where
  BaseURL : String
  Model : String
  Messages : List ChatCompletionUserMessageParam

structure ChatCompletionMessage where
  Content : String

structure ChatCompletionChoice where
  Message : ChatCompletionMessage

structure ChatCompletion where
  Choices : List ChatCompletionChoice

/-- What the operating system answers to the calls of one `LogToFile` run:
`os.MkdirAll`, `os.OpenFile`, `file.WriteString` and `file.Close`, each `none`
on success or the error it returns. -/
structure FileOutcome where
  mkdirAll : Option Error
  openFile : Option Error
  writeString : Option Error
  close : Option Error

/-- Everything the program reads from outside while it serves a request: the
`k`-th reading of `time.Now().Unix()`, the outcome of the `k`-th `LogToFile`
run, and the outcome of the outbound chat-completion call for a request. -/
structure Env where
  now : Nat → Int
  fileIO : Nat → FileOutcome
  chat : ChatCompletionNewParams → Except Error ChatCompletion

/-- Everything the program changes outside the HTTP response. A file is the
list of its lines, each line a JSON document; `stderr` is the output of the
standard logger; `adapterCalls` records the prompt of every `GetLlmResponse`
call and `chatRequests` every outbound chat-completion call. -/
structure World where
  files : String → List Json
  stderr : List String
  clockReads : Nat
  fileOps : Nat
  adapterCalls : List String
  chatRequests : List ChatCompletionNewParams

/-- `log.Println` / `log.Print` of one value. -/
def World.logPrintln (w : World) (msg : String) : World :=
  { w with stderr := w.stderr ++ [msg] }

/-- `time.Now().Unix()`. -/
def World.timeNowUnix (env : Env) (w : World) : Int × World :=
  (env.now w.clockReads, { w with clockReads := w.clockReads + 1 })

/-- The file `name` with one more line at its end (`O_APPEND`). -/
def appendLine (files : String → List Json) (name : String) (line : Json) :
    String → List Json :=
  fun f => if f = name then files f ++ [line] else files f

/-! ## File logger (lines 67-119) -/

/-- Go's string order on map keys (`a <= b`), character by character. -/
def keyLe : List Char → List Char → Bool
  | [], _ => true
  | _ :: _, [] => false
  | a :: as, b :: bs => a.toNat < b.toNat || (a.toNat == b.toNat && keyLe as bs)

/-- `json.Marshal` of a `map[string]interface{}` whose values are strings and
integers: an object with its keys in sorted order. It has no failing case for
such values. -/
def jsonMarshal (data : List (String × Json)) : Except Error Json :=
  .ok (.obj (data.insertionSort (fun a b => keyLe a.1.toList b.1.toList = true)))

/-- The deferred `file.Close()` of `LogToFile` (lines 98-103). -/
def closeFile (io : FileOutcome) (w : World) : World :=
  match io.close with
  | some closeErr => w.logPrintln closeErr
  | none => w

/-- `LogToFile` (lines 79-119). A failed `WriteString` is taken to leave the
file as it was. -/
def LogToFile (env : Env) (filename : String) (data : List (String × Json))
    (w : World) : World :=
  let io := env.fileIO w.fileOps
  let w := { w with fileOps := w.fileOps + 1 }
  let w := match io.mkdirAll with
    | some dirErr => w.logPrintln dirErr
    | none => w
  match io.openFile with
  | some err => w.logPrintln err
  | none =>
    match jsonMarshal data with
    | .error _ => closeFile io (w.logPrintln "<nil>")
    | .ok jsonData =>
      match io.writeString with
      | some err => closeFile io (w.logPrintln err)
      | none => closeFile io { w with files := appendLine w.files filename jsonData }

/-- `logResponse` (lines 67-76). -/
def logResponse (env : Env) (endpoint : String) (filename : String)
    (response : GenerateResponseBody) (w : World) : World :=
  let (now, w) := w.timeNowUnix env
  let logData := [("endpoint", Json.str endpoint), ("timestamp", Json.num now 0),
    ("response", Json.str response.Response)]
  LogToFile env filename logData w

/-! ## LLM adapter (lines 145-186) -/

/-- `GetLlmResponse` (lines 145-186). The result is `.ok (text, err)` for the
returned pair, or `.error msg` for a run-time panic of the slice index at
line 185. -/
def GetLlmResponse (flags : Flags) (env : Env) (prompt : String) (w : World) :
    Except String (String × Option Error) × World :=
  let w := { w with adapterCalls := w.adapterCalls ++ [prompt] }
  if flags.stubbedFlagVal == true then
    (.ok (stubbedResponse, none), w)
  else
    let params : ChatCompletionNewParams :=
      { BaseURL := flags.llmAPIBaseUrlFlagVal, Model := flags.llmModelFlagVal,
        Messages := [{ Content := prompt }] }
    let result := env.chat params
    let w := { w with chatRequests := w.chatRequests ++ [params] }
    match result with
    | .error responseErr => (.ok ("", some responseErr), w)
    | .ok response =>
      if response.Choices.length == 0 then
        (.ok ("", some "no choices in response"), w)
      else
        match response.Choices[0]? with
        | some choice => (.ok (choice.Message.Content, none), w)
        | none => (.error "index out of range [0] with length 0", w)

/-! ## The HTTP framework: request body binding

`c.ShouldBindBodyWith(&requestBody, binding.JSON)` reads the request body once,
keeps the bytes in the context, and decodes them with `json.Decoder.Decode`
into the struct; the struct has no `binding` tag, so the validation that follows
accepts every decoded value. -/

/-- A request body, by what `json.Decoder` makes of its bytes.
`malformed err`: no JSON value can be read from them (a syntax error in the first
value, or no input); `err` is the decoder's error.
`json v`: the bytes are the JSON text of `v` and nothing else but white space.
`trailing v rest`: the bytes begin with the JSON text of `v` and go on with the
non-blank bytes `rest`; as a whole they are not JSON, but `Decode` reads one value
and stops at its end, so it reads `v` and never looks at `rest`. -/
inductive Body where
  | malformed (err : Error)
  | json (v : Json)
  | trailing (v : Json) (rest : String)

/-- Whether the bytes of a body are, as a whole, one JSON text. -/
def Body.parseable : Body → Bool
  | .malformed _ => false
  | .json _ => true
  | .trailing _ _ => false

/-- Whether an object key selects the field tagged `json:"prompt"`: an exact
match or a match up to letter case. -/
def fieldMatches (key : String) : Bool :=
  key == "prompt" || key.toList.map Char.toLower == "prompt".toList

/-- The name the decoder gives the kind of a JSON value in a type error. -/
def Json.kind : Json → String
  | .null => "null"
  | .bool _ => "bool"
  | .num _ _ => "number"
  | .str _ => "string"
  | .arr _ => "array"
  | .obj _ => "object"

/-- The `UnmarshalTypeError` for a value that does not fit a Go target. -/
def unmarshalTypeError (v : Json) (target : String) : Error :=
  "json: cannot unmarshal " ++ v.kind ++ " into Go " ++ target

/-- Decoding the members of an object into `GenerateRequestBody`, in document
order: a string under a matching key is stored, `null` leaves the field as it
is, any other value is a type error (the first one is kept and decoding goes
on); other keys are skipped. -/
def decodeMembers : List (String × Json) → String × Option Error → String × Option Error
  | [], acc => acc
  | (k, v) :: rest, (prompt, err) =>
    if fieldMatches k then
      match v with
      | .str s => decodeMembers rest (s, err)
      | .null => decodeMembers rest (prompt, err)
      | other =>
        decodeMembers rest (prompt,
          err.orElse fun _ =>
            some (unmarshalTypeError other "struct field GenerateRequestBody.prompt of type string"))
    else
      decodeMembers rest (prompt, err)

/-- Decoding of one JSON value into a zero `GenerateRequestBody` (`var
requestBody GenerateRequestBody`, lines 21-23, 46, 123): `null` leaves the
struct as it is, an object is decoded member by member, every other value is a
type error. -/
def decodeValue (v : Json) : Except Error GenerateRequestBody :=
  match v with
  | .null => .ok { Prompt := "" }
  | .obj members =>
    match decodeMembers members ("", none) with
    | (prompt, none) => .ok { Prompt := prompt }
    | (_, some err) => .error err
  | other => .error (unmarshalTypeError other "value of type main.GenerateRequestBody")

/-- What `binding.JSON.BindBody` returns for the bytes of a body. -/
def bindJSON (body : Body) : Except Error GenerateRequestBody :=
  match body with
  | .malformed err => .error err
  | .json v => decodeValue v
  | .trailing v _ => decodeValue v

/-! ## The HTTP framework: response writer and context -/

/-- The response writer of a context: `status` is the code that will be sent,
`sent` the status line already sent to the client (`none` while nothing has been
written), `body` the JSON documents written to the response body, in order. -/
structure ResponseWriter where
  status : Nat
  sent : Option Nat
  body : List Json

/-- Whether the header has been written. -/
def ResponseWriter.Written (w : ResponseWriter) : Bool :=
  w.sent.isSome

/-- Sets the status code; after the header has been written the call is
ignored. -/
def ResponseWriter.WriteHeader (w : ResponseWriter) (code : Nat) : ResponseWriter :=
  if code > 0 && w.status != code then
    if w.Written then w else { w with status := code }
  else
    w

/-- Sends the status line if it has not been sent. -/
def ResponseWriter.WriteHeaderNow (w : ResponseWriter) : ResponseWriter :=
  if !w.Written then { w with sent := some w.status } else w

/-- Writes one document to the body, sending the status line first if
needed. -/
def ResponseWriter.Write (w : ResponseWriter) (data : Json) : ResponseWriter :=
  let w := w.WriteHeaderNow
  { w with body := w.body ++ [data] }

/-- The request: `c.Request.URL.Path` and the body. -/
structure HttpRequest where
  Path : String
  Body : Body

/-- The part of `gin.Context` the handlers use: the request, the cached body
bytes (`none` until the first `ShouldBindBodyWith`), the index of the running
handler and the response writer. -/
structure Context where
  Request : HttpRequest
  bodyBytes : Option Body
  index : Int
  Writer : ResponseWriter

/-- The index `Abort` sets, past every handler. -/
def abortIndex : Int := 63

/-- A fresh context for a request: index `-1`, status 200, nothing written. -/
def Context.reset (req : HttpRequest) : Context :=
  { Request := req, bodyBytes := none, index := -1,
    Writer := { status := 200, sent := none, body := [] } }

/-- `c.Abort()`: no handler after the running one is started. The running
handler itself goes on. -/
def Context.Abort (c : Context) : Context :=
  { c with index := abortIndex }

/-- `c.Status(code)`. -/
def Context.Status (c : Context) (code : Nat) : Context :=
  { c with Writer := c.Writer.WriteHeader code }

/-- Whether a response with this status may have a body. -/
def bodyAllowedForStatus (status : Nat) : Bool :=
  if status ≥ 100 && status ≤ 199 then false
  else if status == 204 then false
  else if status == 304 then false
  else true

/-- `c.JSON(code, obj)`, with `obj` given as the document `json.Marshal`
makes of it (a string, a `gin.H` of strings and a `GenerateResponseBody` all
marshal without error). -/
def Context.JSON (c : Context) (code : Nat) (obj : Json) : Context :=
  let c := c.Status code
  if !bodyAllowedForStatus code then
    { c with Writer := c.Writer.WriteHeaderNow }
  else
    { c with Writer := c.Writer.Write obj }

/-- `c.AbortWithStatusJSON(code, jsonObj)`: `Abort`, then `JSON`. -/
def Context.AbortWithStatusJSON (c : Context) (code : Nat) (jsonObj : Json) : Context :=
  (c.Abort).JSON code jsonObj

/-- `c.ShouldBindBodyWith(&requestBody, binding.JSON)`: the first call reads the
request body to its end and keeps the bytes, later calls decode the kept
bytes. -/
def Context.ShouldBindBodyWith (c : Context) : Except Error GenerateRequestBody × Context :=
  match c.bodyBytes with
  | some body => (bindJSON body, c)
  | none =>
    let body := c.Request.Body
    (bindJSON body,
      { c with Request := { c.Request with Body := .malformed "EOF" }, bodyBytes := some body })

/-- The state a handler runs on: the context, the world, and the panic that is
unwinding the goroutine, if any. -/
structure State where
  c : Context
  world : World
  panicked : Option String

/-- A handler; its first argument is what `c.Next()` does when the handler
calls it. -/
abbrev HandlerFunc := (State → State) → State → State

/-- The loop of `Context.Next`: while the index is below the number of handlers,
run the handler at the index and increment the index. A panic ends it. One unit
of fuel is used per handler started; `Next_fuel` shows that the two units
`serveGenerate` gives are enough. The index is never negative when the loop
runs (`Next` has incremented it from `-1`). -/
def nextLoop (handlers : List HandlerFunc) : Nat → State → State
  | 0, s => s
  | fuel + 1, s =>
    if s.c.index < 0 then s
    else
      match handlers[s.c.index.toNat]? with
      | none => s
      | some h =>
        let s1 := h (fun s2 => nextLoop handlers fuel { s2 with c.index := s2.c.index + 1 }) s
        if s1.panicked.isSome then s1
        else nextLoop handlers fuel { s1 with c.index := s1.c.index + 1 }

/-- `c.Next()`: increment the index, then run the loop. -/
def Context.Next (handlers : List HandlerFunc) (fuel : Nat) (s : State) : State :=
  nextLoop handlers fuel { s with c.index := s.c.index + 1 }

/-! ## The request pipeline (lines 43-65, 121-143, 234-241) -/

/-- `GenerateResponseBody` as `json.Marshal` renders it. -/
def GenerateResponseBody.toJson (r : GenerateResponseBody) : Json :=
  .obj [("response", .str r.Response)]

/-- `RequestLoggerMiddleware` (lines 44-65). On a binding error it returns
without `c.Abort()` and without `c.Next()`. -/
def RequestLoggerMiddleware (env : Env) (filename : String) : HandlerFunc :=
  fun next s =>
    let (bound, c) := s.c.ShouldBindBodyWith
    let s := { s with c := c }
    match bound with
    | .error err => { s with world := s.world.logPrintln err }
    | .ok requestBody =>
      let (now, w) := s.world.timeNowUnix env
      let logData := [("endpoint", Json.str s.c.Request.Path), ("timestamp", Json.num now 0),
        ("prompt", Json.str requestBody.Prompt)]
      let s := { s with world := LogToFile env filename logData w }
      next s

/-- `generateHandler` (lines 122-143). The branch for `responseErr != nil`
(lines 133-138) has no `return`: lines 139-140 run after it. -/
def generateHandler (flags : Flags) (env : Env) : HandlerFunc :=
  fun _ s =>
    let (bound, c) := s.c.ShouldBindBodyWith
    let s := { s with c := c }
    match bound with
    | .error err =>
      let s := { s with world := s.world.logPrintln err }
      { s with c := s.c.AbortWithStatusJSON 400 (.obj [("error", .str InvalidRequestBody)]) }
    | .ok requestBody =>
      match GetLlmResponse flags env requestBody.Prompt s.world with
      | (.error msg, w) => { s with world := w, panicked := some msg }
      | (.ok (response, responseErr), w) =>
        let s := { s with world := w }
        let s := match responseErr with
          | some err =>
            let s := { s with world := s.world.logPrintln err }
            { s with c := s.c.AbortWithStatusJSON 400 (.str SomethingWentWrong) }
          | none => s
        let w := logResponse env s.c.Request.Path flags.logFileFlagVal ⟨response⟩ s.world
        let s := { s with world := w }
        { s with c := s.c.AbortWithStatusJSON 200 (GenerateResponseBody.toJson ⟨response⟩) }

/-- The handlers `main` registers for `POST /generate` (lines 234-239): the
middleware installed with `router.Use`, then `generateHandler`. -/
def generateRoute (flags : Flags) (env : Env) : List HandlerFunc :=
  [RequestLoggerMiddleware env flags.logFileFlagVal, generateHandler flags env]

/-- The server handling one `POST /generate` request (`router.Run`, line 241):
a fresh context, the handler chain run by `Next`, and the status line sent at
the end if no handler wrote anything. -/
def serveGenerate (flags : Flags) (env : Env) (req : HttpRequest) (w : World) : State :=
  let s := Context.Next (generateRoute flags env) (generateRoute flags env).length
    { c := Context.reset req, world := w, panicked := none }
  if s.panicked.isSome then s
  else { s with c.Writer := s.c.Writer.WriteHeaderNow }

/-- The response the client receives: the status line sent and the documents
of the body, or `none` when no status line was sent. -/
def State.response (s : State) : Option (Nat × List Json) :=
  s.c.Writer.sent.map fun code => (code, s.c.Writer.body)

/-- The world in which `generateHandler` calls the adapter when the body binds
with prompt `p`: the world the middleware leaves after it has read the clock and
logged the request. -/
def worldAtAdapterCall (flags : Flags) (env : Env) (req : HttpRequest) (p : String)
    (w : World) : World :=
  LogToFile env flags.logFileFlagVal
    [("endpoint", Json.str req.Path), ("timestamp", Json.num (env.now w.clockReads) 0),
      ("prompt", Json.str p)] { w with clockReads := w.clockReads + 1 }

/-! ## Concrete inputs -/

/-- The flag defaults of `init` (lines 200-205). -/
def defaultFlags : Flags :=
  { portFlagVal := 8080, llmAPIBaseUrlFlagVal := "http://localhost:11434/v1/",
    llmModelFlagVal := "llama3.2:latest", logFileFlagVal := "./logs/log.jsonl",
    testPromptFlagVal := "", stubbedFlagVal := false }

/-- The defaults with `--stubbed`. -/
def stubbedFlags : Flags :=
  { defaultFlags with stubbedFlagVal := true }

/-- A process that has done nothing yet, on a disk with no log file. -/
def freshWorld : World :=
  { files := fun _ => [], stderr := [], clockReads := 0, fileOps := 0, adapterCalls := [],
    chatRequests := [] }

/-- Every file operation succeeds. -/
def fileOk : FileOutcome :=
  { mkdirAll := none, openFile := none, writeString := none, close := none }

/-- An environment whose upstream service refuses the connection; the clock
reads 1700000000, 1700000001, ... and every file operation succeeds. -/
def upstreamDownEnv : Env :=
  { now := fun k => 1700000000 + k, fileIO := fun _ => fileOk,
    chat := fun _ => .error "dial tcp 127.0.0.1:11434: connect: connection refused" }

/-- An environment whose upstream service answers with one choice. -/
def upstreamUpEnv : Env :=
  { now := fun k => 1700000000 + k, fileIO := fun _ => fileOk,
    chat := fun _ => .ok { Choices := [{ Message := { Content := "Hi there" } }] } }

/-- An environment whose upstream service answers with no choice. -/
def upstreamEmptyEnv : Env :=
  { now := fun k => 1700000000 + k, fileIO := fun _ => fileOk,
    chat := fun _ => .ok { Choices := [] } }

/-- `POST /generate` with body `{"prompt":"hello"}`. -/
def helloRequest : HttpRequest :=
  { Path := "/generate", Body := .json (.obj [("prompt", .str "hello")]) }

/-- `POST /generate` with body `{"prompt":"a"} trailing`. -/
def trailingRequest : HttpRequest :=
  { Path := "/generate", Body := .trailing (.obj [("prompt", .str "a")]) "trailing" }

/-- `POST /generate` with body `{"prompt":"hello` (the text ends inside the
string). -/
def truncatedRequest : HttpRequest :=
  { Path := "/generate", Body := .malformed "unexpected EOF" }

/-- `POST /generate` with body `{}`. -/
def emptyObjectRequest : HttpRequest :=
  { Path := "/generate", Body := .json (.obj []) }

/-! ## Theorems -/

/-- C7: for every integer `p`, `IsValidPort p` is true exactly when
`1 ≤ p ≤ 65535`. -/
theorem IsValidPort_iff (p : Int) : IsValidPort p = true ↔ 1 ≤ p ∧ p ≤ 65535 := by
  unfold IsValidPort
  by_cases h : p > 0 <;> by_cases h2 : p ≤ 65535 <;> simp [h, h2] <;> omega

/-! ### The handler and the pipeline, by outcome -/

/-- The handler on a body that is already cached and does not bind. -/
theorem handler_bind_error (flags : Flags) (env : Env) (next : State → State) (s : State)
    (body : Body) (err : Error) (hc : s.c.bodyBytes = some body)
    (hb : bindJSON body = .error err) (hs : s.c.Writer = { status := 200, sent := none, body := [] }) :
    generateHandler flags env next s =
      { c := { s.c with index := 63, Writer := ⟨400, some 400, [.obj [("error", .str InvalidRequestBody)]]⟩ },
        world := s.world.logPrintln err,
        panicked := s.panicked } := by
  simp [generateHandler, Context.ShouldBindBodyWith, hc, hb, hs,
    Context.AbortWithStatusJSON, Context.Abort, Context.JSON, Context.Status,
    ResponseWriter.WriteHeader, ResponseWriter.WriteHeaderNow, ResponseWriter.Write,
    ResponseWriter.Written, bodyAllowedForStatus, abortIndex]

/-- The handler on a cached body that binds, when the adapter returns text. -/
theorem handler_adapter_ok (flags : Flags) (env : Env) (next : State → State) (s : State)
    (body : Body) (p t : String) (w1 : World) (hc : s.c.bodyBytes = some body)
    (hb : bindJSON body = .ok ⟨p⟩) (hs : s.c.Writer = { status := 200, sent := none, body := [] })
    (ha : GetLlmResponse flags env p s.world = (.ok (t, none), w1)) :
    generateHandler flags env next s =
      { c := { s.c with index := 63, Writer := ⟨200, some 200, [.obj [("response", .str t)]]⟩ },
        world := logResponse env s.c.Request.Path flags.logFileFlagVal ⟨t⟩ w1,
        panicked := s.panicked } := by
  simp [generateHandler, Context.ShouldBindBodyWith, hc, hb, hs, ha,
    Context.AbortWithStatusJSON, Context.Abort, Context.JSON, Context.Status,
    ResponseWriter.WriteHeader, ResponseWriter.WriteHeaderNow, ResponseWriter.Write,
    ResponseWriter.Written, bodyAllowedForStatus, abortIndex, GenerateResponseBody.toJson]

/-- The handler on a cached body that binds, when the adapter returns an
error: both `AbortWithStatusJSON` calls write to the response. -/
theorem handler_adapter_err (flags : Flags) (env : Env) (next : State → State) (s : State)
    (body : Body) (p t : String) (e : Error) (w1 : World) (hc : s.c.bodyBytes = some body)
    (hb : bindJSON body = .ok ⟨p⟩) (hs : s.c.Writer = { status := 200, sent := none, body := [] })
    (ha : GetLlmResponse flags env p s.world = (.ok (t, some e), w1)) :
    generateHandler flags env next s =
      { c := { s.c with index := 63, Writer := ⟨400, some 400, [.str SomethingWentWrong, .obj [("response", .str t)]]⟩ },
        world := logResponse env s.c.Request.Path flags.logFileFlagVal ⟨t⟩ (w1.logPrintln e),
        panicked := s.panicked } := by
  simp [generateHandler, Context.ShouldBindBodyWith, hc, hb, hs, ha,
    Context.AbortWithStatusJSON, Context.Abort, Context.JSON, Context.Status,
    ResponseWriter.WriteHeader, ResponseWriter.WriteHeaderNow, ResponseWriter.Write,
    ResponseWriter.Written, bodyAllowedForStatus, abortIndex, GenerateResponseBody.toJson]

/-- The final state of the pipeline on a body that does not bind. -/
theorem serve_bind_error (flags : Flags) (env : Env) (req : HttpRequest) (w : World) (err : Error)
    (hb : bindJSON req.Body = .error err) :
    serveGenerate flags env req w =
      { c := { Request := { req with Body := .malformed "EOF" }, bodyBytes := some req.Body,
               index := 64,
               Writer := ⟨400, some 400, [.obj [("error", .str InvalidRequestBody)]]⟩ },
        world := (w.logPrintln err).logPrintln err,
        panicked := none } := by
  simp [serveGenerate, Context.Next, nextLoop, generateRoute, RequestLoggerMiddleware,
    Context.ShouldBindBodyWith, Context.reset, hb]
  rw [handler_bind_error flags env _ _ req.Body err rfl hb rfl]
  simp [ResponseWriter.WriteHeaderNow, ResponseWriter.Written]

/-- The final state of the pipeline when the adapter returns text. -/
theorem serve_adapter_ok (flags : Flags) (env : Env) (req : HttpRequest) (w w1 : World)
    (p t : String)
    (hb : bindJSON req.Body = .ok ⟨p⟩)
    (ha : GetLlmResponse flags env p (worldAtAdapterCall flags env req p w) = (.ok (t, none), w1)) :
    serveGenerate flags env req w =
      { c := { Request := { req with Body := .malformed "EOF" }, bodyBytes := some req.Body,
               index := 65,
               Writer := ⟨200, some 200, [.obj [("response", .str t)]]⟩ },
        world := logResponse env req.Path flags.logFileFlagVal ⟨t⟩ w1,
        panicked := none } := by
  simp [serveGenerate, Context.Next, nextLoop, generateRoute, RequestLoggerMiddleware,
    Context.ShouldBindBodyWith, Context.reset, hb, World.timeNowUnix]
  rw [handler_adapter_ok flags env _ _ req.Body p t w1 rfl hb rfl ha]
  simp [ResponseWriter.WriteHeaderNow, ResponseWriter.Written]

/-- The final state of the pipeline when the adapter returns an error. -/
theorem serve_adapter_err (flags : Flags) (env : Env) (req : HttpRequest) (w w1 : World)
    (p t : String) (e : Error)
    (hb : bindJSON req.Body = .ok ⟨p⟩)
    (ha : GetLlmResponse flags env p (worldAtAdapterCall flags env req p w) = (.ok (t, some e), w1)) :
    serveGenerate flags env req w =
      { c := { Request := { req with Body := .malformed "EOF" }, bodyBytes := some req.Body,
               index := 65,
               Writer := ⟨400, some 400, [.str SomethingWentWrong, .obj [("response", .str t)]]⟩ },
        world := logResponse env req.Path flags.logFileFlagVal ⟨t⟩ (w1.logPrintln e),
        panicked := none } := by
  simp [serveGenerate, Context.Next, nextLoop, generateRoute, RequestLoggerMiddleware,
    Context.ShouldBindBodyWith, Context.reset, hb, World.timeNowUnix]
  rw [handler_adapter_err flags env _ _ req.Body p t e w1 rfl hb rfl ha]
  simp [ResponseWriter.WriteHeaderNow, ResponseWriter.Written]

/-! ### The adapter -/

/-- The pair the adapter returns does not depend on the world. -/
theorem GetLlmResponse_fst (flags : Flags) (env : Env) (p : String) (w w2 : World) :
    (GetLlmResponse flags env p w2).1 = (GetLlmResponse flags env p w).1 := by
  unfold GetLlmResponse
  by_cases hs : flags.stubbedFlagVal = true
  · simp [hs]
  · simp only [hs]
    cases env.chat ⟨flags.llmAPIBaseUrlFlagVal, flags.llmModelFlagVal, [⟨p⟩]⟩ with
    | error e => simp
    | ok r =>
      cases hc : r.Choices with
      | nil => simp [hc]
      | cons c cs => simp [hc]

/-- The world the adapter leaves: the call is recorded, and so is the outbound
request unless stubbed mode is on. -/
theorem GetLlmResponse_snd (flags : Flags) (env : Env) (p : String) (w : World) :
    (GetLlmResponse flags env p w).2 =
      { w with
        adapterCalls := w.adapterCalls ++ [p],
        chatRequests := if flags.stubbedFlagVal = true then w.chatRequests
          else w.chatRequests ++ [⟨flags.llmAPIBaseUrlFlagVal, flags.llmModelFlagVal, [⟨p⟩]⟩] } := by
  unfold GetLlmResponse
  by_cases hs : flags.stubbedFlagVal = true
  · simp [hs]
  · simp only [hs]
    cases env.chat ⟨flags.llmAPIBaseUrlFlagVal, flags.llmModelFlagVal, [⟨p⟩]⟩ with
    | error e => simp
    | ok r =>
      cases hc : r.Choices with
      | nil => simp [hc]
      | cons c cs => simp [hc]

/-- The slice index of line 185 never panics. -/
theorem GetLlmResponse_no_panic (flags : Flags) (env : Env) (p : String) (w : World) (msg : String) :
    (GetLlmResponse flags env p w).1 ≠ .error msg := by
  unfold GetLlmResponse
  by_cases hs : flags.stubbedFlagVal = true
  · simp [hs]
  · simp only [hs]
    cases env.chat ⟨flags.llmAPIBaseUrlFlagVal, flags.llmModelFlagVal, [⟨p⟩]⟩ with
    | error e => simp
    | ok r =>
      cases hc : r.Choices with
      | nil => simp [hc]
      | cons c cs => simp [hc]

/-- With an error the adapter returns the empty text. -/
theorem GetLlmResponse_err_text (flags : Flags) (env : Env) (p : String) (w : World)
    (t : String) (e : Error) (h : (GetLlmResponse flags env p w).1 = .ok (t, some e)) :
    t = "" := by
  unfold GetLlmResponse at h
  by_cases hs : flags.stubbedFlagVal = true
  · simp [hs] at h
  · simp only [hs] at h
    cases hr : env.chat ⟨flags.llmAPIBaseUrlFlagVal, flags.llmModelFlagVal, [⟨p⟩]⟩ with
    | error e => simp [hr] at h; exact h.1.symm
    | ok r =>
      cases hc : r.Choices with
      | nil => simp [hr, hc] at h; exact h.1.symm
      | cons c cs => simp [hr, hc] at h

/-- The adapter in stubbed mode. -/
theorem GetLlmResponse_of_stubbed (flags : Flags) (env : Env) (p : String) (w : World)
    (hs : flags.stubbedFlagVal = true) :
    GetLlmResponse flags env p w =
      (.ok (stubbedResponse, none), { w with adapterCalls := w.adapterCalls ++ [p] }) := by
  simp [GetLlmResponse, hs]

/-! ### The file logger -/

/-- When the file opens and the write succeeds, the marshalled record is
appended to the file. -/
theorem LogToFile_success (env : Env) (filename : String) (data : List (String × Json))
    (w : World) (ho : (env.fileIO w.fileOps).openFile = none)
    (hw : (env.fileIO w.fileOps).writeString = none) :
    (LogToFile env filename data w).files =
        appendLine w.files filename
          (.obj (data.insertionSort (fun a b => keyLe a.1.toList b.1.toList = true))) := by
  unfold LogToFile
  simp only [ho, hw, jsonMarshal, closeFile]
  cases (env.fileIO w.fileOps).mkdirAll <;> cases (env.fileIO w.fileOps).close <;> rfl

/-- The file logger uses one file outcome and touches neither the clock nor
the records of adapter and outbound calls. -/
theorem LogToFile_counters (env : Env) (filename : String) (data : List (String × Json))
    (w : World) :
    (LogToFile env filename data w).fileOps = w.fileOps + 1 ∧
    (LogToFile env filename data w).clockReads = w.clockReads ∧
    (LogToFile env filename data w).adapterCalls = w.adapterCalls ∧
    (LogToFile env filename data w).chatRequests = w.chatRequests := by
  unfold LogToFile
  simp only [jsonMarshal, closeFile]
  cases (env.fileIO w.fileOps).mkdirAll <;> cases (env.fileIO w.fileOps).openFile <;>
    cases (env.fileIO w.fileOps).writeString <;> cases (env.fileIO w.fileOps).close <;>
    simp [World.logPrintln]

/-! ### The adapter (C8, C9) -/

/-- C8: with stubbed mode enabled, for every prompt, base URL and model,
`GetLlmResponse` returns the fixed placeholder text with no error, and the list
of outbound chat-completion calls is left as it was: the only change to the
world is the record of the adapter call itself. -/
theorem GetLlmResponse_stubbed (flags : Flags) (env : Env) (prompt : String) (w : World)
    (hs : flags.stubbedFlagVal = true) :
    GetLlmResponse flags env prompt w =
        (.ok ("I'm a local AI model, running offline!", none),
          { w with adapterCalls := w.adapterCalls ++ [prompt] }) ∧
      (GetLlmResponse flags env prompt w).2.chatRequests = w.chatRequests := by
  simp [GetLlmResponse, hs, stubbedResponse]

theorem GetLlmResponse_stubbed_witness :
    stubbedFlags.stubbedFlagVal = true ∧
      (GetLlmResponse stubbedFlags upstreamDownEnv "hello" freshWorld =
          (.ok ("I'm a local AI model, running offline!", none),
            { freshWorld with adapterCalls := freshWorld.adapterCalls ++ ["hello"] }) ∧
        (GetLlmResponse stubbedFlags upstreamDownEnv "hello" freshWorld).2.chatRequests =
          freshWorld.chatRequests) :=
  ⟨rfl, GetLlmResponse_stubbed stubbedFlags upstreamDownEnv "hello" freshWorld rfl⟩

/-- C9: with stubbed mode off, `GetLlmResponse` returns the upstream error
unchanged with empty text when the chat-completion call fails, the error
"no choices in response" with empty text when it succeeds with no choice, and
the content of the first choice with no error when it succeeds with at least
one choice; in no case does the index of the first choice panic. -/
theorem GetLlmResponse_live (flags : Flags) (env : Env) (prompt : String) (w : World)
    (hs : flags.stubbedFlagVal = false) :
    (∀ e, env.chat ⟨flags.llmAPIBaseUrlFlagVal, flags.llmModelFlagVal, [⟨prompt⟩]⟩ = .error e →
        (GetLlmResponse flags env prompt w).1 = .ok ("", some e)) ∧
      (∀ r, env.chat ⟨flags.llmAPIBaseUrlFlagVal, flags.llmModelFlagVal, [⟨prompt⟩]⟩ = .ok r →
        r.Choices = [] →
        (GetLlmResponse flags env prompt w).1 = .ok ("", some "no choices in response")) ∧
      (∀ r c cs, env.chat ⟨flags.llmAPIBaseUrlFlagVal, flags.llmModelFlagVal, [⟨prompt⟩]⟩ = .ok r →
        r.Choices = c :: cs →
        (GetLlmResponse flags env prompt w).1 = .ok (c.Message.Content, none)) ∧
      (∀ msg, (GetLlmResponse flags env prompt w).1 ≠ .error msg) := by
  refine ⟨?_, ?_, ?_, GetLlmResponse_no_panic flags env prompt w⟩
  · intro e he
    simp [GetLlmResponse, hs, he]
  · intro r hr hc
    simp [GetLlmResponse, hs, hr, hc]
  · intro r c cs hr hc
    simp [GetLlmResponse, hs, hr, hc]

theorem GetLlmResponse_live_witness :
    defaultFlags.stubbedFlagVal = false ∧
      (GetLlmResponse defaultFlags upstreamDownEnv "hello" freshWorld).1 =
        .ok ("", some "dial tcp 127.0.0.1:11434: connect: connection refused") ∧
      (GetLlmResponse defaultFlags upstreamEmptyEnv "hello" freshWorld).1 =
        .ok ("", some "no choices in response") ∧
      (GetLlmResponse defaultFlags upstreamUpEnv "hello" freshWorld).1 = .ok ("Hi there", none) :=
  ⟨rfl,
    (GetLlmResponse_live defaultFlags upstreamDownEnv "hello" freshWorld rfl).1 _ rfl,
    (GetLlmResponse_live defaultFlags upstreamEmptyEnv "hello" freshWorld rfl).2.1 _ rfl rfl,
    (GetLlmResponse_live defaultFlags upstreamUpEnv "hello" freshWorld rfl).2.2.1 _ _ _ rfl rfl⟩

/-! ### Rejected bodies (C2, C3) -/

/-- C3 (as stated, refuted): the body `{"prompt":"a"} trailing` is not
parseable JSON, yet with stubbed mode on it is answered 200 with the placeholder
text and the adapter is called with prompt `"a"`: the decoder reads the leading
object and stops; so it is not the case that the pipeline responds 400
`{"error":"Invalid request body"}` and leaves the adapter uncalled. -/
theorem trailing_bytes_not_rejected :
    trailingRequest.Body.parseable = false ∧
      ((serveGenerate stubbedFlags upstreamDownEnv trailingRequest freshWorld).response =
          some (200, [.obj [("response", .str "I'm a local AI model, running offline!")]]) ∧
        (serveGenerate stubbedFlags upstreamDownEnv trailingRequest
          freshWorld).world.adapterCalls = ["a"]) ∧
      ¬ ((serveGenerate stubbedFlags upstreamDownEnv trailingRequest freshWorld).response =
            some (400, [.obj [("error", .str "Invalid request body")]]) ∧
          (serveGenerate stubbedFlags upstreamDownEnv trailingRequest
            freshWorld).world.adapterCalls = []) := by
  have h1 : (serveGenerate stubbedFlags upstreamDownEnv trailingRequest freshWorld).response =
      some (200, [.obj [("response", .str "I'm a local AI model, running offline!")]]) := rfl
  have h2 : (serveGenerate stubbedFlags upstreamDownEnv trailingRequest
      freshWorld).world.adapterCalls = ["a"] := rfl
  refine ⟨rfl, ⟨h1, h2⟩, fun h => ?_⟩
  rw [h2] at h
  exact absurd h.2 (by simp)

/-- C3 (amended): for every request whose body the decoder fails on, with
error `err` (this covers every body from which no JSON value can be read, and
every body whose first value does not fit the struct), the middleware logs the
error and returns without aborting the chain and without touching the
response; the pipeline then responds 400 with
`{"error":"Invalid request body"}`, which only `generateHandler` writes; the
error is logged twice (once by the middleware, once by the handler), no adapter
call and no outbound call is made, and no file is written. -/
theorem generate_decode_failure (flags : Flags) (env : Env) (path : String) (body : Body)
    (err : Error) (w : World) (hb : bindJSON body = .error err) :
    (∀ next : State → State,
        (RequestLoggerMiddleware env flags.logFileFlagVal next
            ⟨{ Context.reset ⟨path, body⟩ with index := 0 }, w, none⟩).c.index = 0 ∧
        (RequestLoggerMiddleware env flags.logFileFlagVal next
            ⟨{ Context.reset ⟨path, body⟩ with index := 0 }, w, none⟩).c.Writer =
          (Context.reset ⟨path, body⟩).Writer) ∧
      (serveGenerate flags env ⟨path, body⟩ w).response =
        some (400, [.obj [("error", .str "Invalid request body")]]) ∧
      (serveGenerate flags env ⟨path, body⟩ w).world.stderr = w.stderr ++ [err, err] ∧
      (serveGenerate flags env ⟨path, body⟩ w).world.adapterCalls = w.adapterCalls ∧
      (serveGenerate flags env ⟨path, body⟩ w).world.chatRequests = w.chatRequests ∧
      (serveGenerate flags env ⟨path, body⟩ w).world.files = w.files ∧
      (serveGenerate flags env ⟨path, body⟩ w).panicked = none := by
  have hb2 : bindJSON (HttpRequest.mk path body).Body = .error err := hb
  rw [serve_bind_error flags env _ w err hb2]
  refine ⟨fun next => ?_, ?_, ?_, ?_, ?_, ?_, ?_⟩
  · simp [RequestLoggerMiddleware, Context.ShouldBindBodyWith, Context.reset, hb]
  · simp [State.response, InvalidRequestBody]
  · simp [World.logPrintln]
  · simp [World.logPrintln]
  · simp [World.logPrintln]
  · simp [World.logPrintln]
  · rfl

theorem generate_decode_failure_witness :
    bindJSON truncatedRequest.Body = .error "unexpected EOF" ∧
      (serveGenerate defaultFlags upstreamUpEnv truncatedRequest freshWorld).response =
        some (400, [.obj [("error", .str "Invalid request body")]]) ∧
      (serveGenerate defaultFlags upstreamUpEnv truncatedRequest freshWorld).world.adapterCalls =
        freshWorld.adapterCalls :=
  ⟨rfl,
    (generate_decode_failure defaultFlags upstreamUpEnv "/generate" (.malformed "unexpected EOF")
      "unexpected EOF" freshWorld rfl).2.1,
    (generate_decode_failure defaultFlags upstreamUpEnv "/generate" (.malformed "unexpected EOF")
      "unexpected EOF" freshWorld rfl).2.2.2.1⟩

/-! ### Bodies that bind (C2, C4, C6) -/

/-- Members whose keys do not match leave the struct as it is. -/
theorem decodeMembers_no_match (members : List (String × Json)) (acc : String × Option Error)
    (hm : ∀ kv ∈ members, fieldMatches kv.1 = false) : decodeMembers members acc = acc := by
  induction members generalizing acc with
  | nil => rfl
  | cons kv rest ih =>
    obtain ⟨k, v⟩ := kv
    obtain ⟨prompt, err⟩ := acc
    have hk : fieldMatches k = false := hm (k, v) (List.mem_cons_self _ _)
    have hrest : ∀ kv ∈ rest, fieldMatches kv.1 = false :=
      fun kv h => hm kv (List.mem_cons_of_mem _ h)
    simp [decodeMembers, hk, ih _ hrest]

/-- A body that binds is answered either 200 with a response document or 400
with the two documents of the adapter-error path. -/
theorem serve_bound_response (flags : Flags) (env : Env) (req : HttpRequest) (w : World)
    (p : String) (hb : bindJSON req.Body = .ok ⟨p⟩) :
    (∃ t, (serveGenerate flags env req w).response =
        some (200, [.obj [("response", .str t)]])) ∨
      (serveGenerate flags env req w).response =
        some (400, [.str SomethingWentWrong, .obj [("response", .str "")]]) := by
  rcases hg : GetLlmResponse flags env p (worldAtAdapterCall flags env req p w) with ⟨r, w1⟩
  rcases r with msg | ⟨t, _ | e⟩
  · exact absurd (congrArg Prod.fst hg) (GetLlmResponse_no_panic flags env p _ msg)
  · left
    exact ⟨t, by rw [serve_adapter_ok flags env req w w1 p t hb hg]; rfl⟩
  · right
    have ht : t = "" := GetLlmResponse_err_text flags env p _ t e (by rw [hg])
    subst ht
    rw [serve_adapter_err flags env req w w1 p "" e hb hg]; rfl

/-- On a body that binds the adapter is called exactly once, with the bound
prompt. -/
theorem serve_bound_adapterCalls (flags : Flags) (env : Env) (req : HttpRequest) (w : World)
    (p : String) (hb : bindJSON req.Body = .ok ⟨p⟩) :
    (serveGenerate flags env req w).world.adapterCalls = w.adapterCalls ++ [p] := by
  rcases hg : GetLlmResponse flags env p (worldAtAdapterCall flags env req p w) with ⟨r, w1⟩
  have hw1 : w1.adapterCalls = w.adapterCalls ++ [p] := by
    have h2 := GetLlmResponse_snd flags env p (worldAtAdapterCall flags env req p w)
    rw [hg] at h2
    simp only at h2
    rw [h2]
    simp [worldAtAdapterCall, (LogToFile_counters env _ _ _).2.2.1]
  rcases r with msg | ⟨t, _ | e⟩
  · exact absurd (congrArg Prod.fst hg) (GetLlmResponse_no_panic flags env p _ msg)
  · rw [serve_adapter_ok flags env req w w1 p t hb hg]
    simp [logResponse, World.timeNowUnix, (LogToFile_counters env _ _ _).2.2.1, hw1]
  · rw [serve_adapter_err flags env req w w1 p t e hb hg]
    simp [logResponse, World.timeNowUnix, (LogToFile_counters env _ _ _).2.2.1, hw1,
      World.logPrintln]

/-- C2 (as stated, refuted): with stubbed mode on, the body `{}` is answered
200 with the placeholder text and the adapter is called with the empty prompt;
so it is not the case that the pipeline responds 400
`{"error":"Invalid request body"}` and leaves the adapter uncalled. -/
theorem empty_object_not_rejected :
    ((serveGenerate stubbedFlags upstreamDownEnv emptyObjectRequest freshWorld).response =
          some (200, [.obj [("response", .str "I'm a local AI model, running offline!")]]) ∧
        (serveGenerate stubbedFlags upstreamDownEnv emptyObjectRequest
          freshWorld).world.adapterCalls = [""]) ∧
      ¬ ((serveGenerate stubbedFlags upstreamDownEnv emptyObjectRequest freshWorld).response =
            some (400, [.obj [("error", .str "Invalid request body")]]) ∧
          (serveGenerate stubbedFlags upstreamDownEnv emptyObjectRequest
            freshWorld).world.adapterCalls = []) := by
  have h1 : (serveGenerate stubbedFlags upstreamDownEnv emptyObjectRequest freshWorld).response =
      some (200, [.obj [("response", .str "I'm a local AI model, running offline!")]]) := rfl
  have h2 : (serveGenerate stubbedFlags upstreamDownEnv emptyObjectRequest
      freshWorld).world.adapterCalls = [""] := rfl
  refine ⟨⟨h1, h2⟩, fun h => ?_⟩
  rw [h2] at h
  exact absurd h.2 (by simp)

/-- C2 (amended): for every request whose body is a JSON object with no member
whose key matches `prompt`, the body binds with the empty prompt; the pipeline
calls the adapter once, with prompt `""`; it does not respond 400
`{"error":"Invalid request body"}`; and with stubbed mode on it responds 200
with the placeholder text. -/
theorem generate_missing_prompt (flags : Flags) (env : Env) (path : String)
    (members : List (String × Json)) (w : World)
    (hm : ∀ kv ∈ members, fieldMatches kv.1 = false) :
    bindJSON (.json (.obj members)) = .ok ⟨""⟩ ∧
      (serveGenerate flags env ⟨path, .json (.obj members)⟩ w).world.adapterCalls =
        w.adapterCalls ++ [""] ∧
      (serveGenerate flags env ⟨path, .json (.obj members)⟩ w).response ≠
        some (400, [.obj [("error", .str "Invalid request body")]]) ∧
      (flags.stubbedFlagVal = true →
        (serveGenerate flags env ⟨path, .json (.obj members)⟩ w).response =
          some (200, [.obj [("response", .str "I'm a local AI model, running offline!")]])) := by
  have hb : bindJSON (HttpRequest.mk path (.json (.obj members))).Body = .ok ⟨""⟩ := by
    simp [bindJSON, decodeValue, decodeMembers_no_match members _ hm]
  refine ⟨hb, serve_bound_adapterCalls flags env _ w "" hb, ?_, ?_⟩
  · rcases serve_bound_response flags env _ w "" hb with ⟨t, ht⟩ | ht
    · rw [ht]; simp
    · rw [ht]; simp
  · intro hs
    have hg := GetLlmResponse_of_stubbed flags env ""
      (worldAtAdapterCall flags env ⟨path, .json (.obj members)⟩ "" w) hs
    rw [serve_adapter_ok flags env _ w _ "" _ hb hg]
    rfl

theorem generate_missing_prompt_witness :
    (∀ kv ∈ ([("user", Json.str "ann")] : List (String × Json)), fieldMatches kv.1 = false) ∧
      bindJSON (.json (.obj [("user", Json.str "ann")])) = .ok ⟨""⟩ ∧
      (serveGenerate stubbedFlags upstreamDownEnv
          ⟨"/generate", .json (.obj [("user", Json.str "ann")])⟩ freshWorld).response =
        some (200, [.obj [("response", .str "I'm a local AI model, running offline!")]]) :=
  have hm : ∀ kv ∈ ([("user", Json.str "ann")] : List (String × Json)),
      fieldMatches kv.1 = false := by
    intro kv hkv
    simp at hkv
    subst hkv
    decide
  ⟨hm,
    (generate_missing_prompt stubbedFlags upstreamDownEnv "/generate" _ freshWorld hm).1,
    (generate_missing_prompt stubbedFlags upstreamDownEnv "/generate" _ freshWorld hm).2.2.2 rfl⟩

/-- C4: for every request whose body binds with prompt `p` and for which the
adapter returns text `t` without error, the response is 200 with body
`{"response": t}`; in particular, with stubbed mode on, the body
`{"prompt":"hello"}` is answered 200 with the placeholder text. (What the
adapter returns for a prompt is the same in every world,
`GetLlmResponse_fst`, so the hypothesis on it is stated in the initial
world.) -/
theorem generate_success_response :
    (∀ (flags : Flags) (env : Env) (req : HttpRequest) (w : World) (p t : String),
        bindJSON req.Body = .ok ⟨p⟩ → (GetLlmResponse flags env p w).1 = .ok (t, none) →
        (serveGenerate flags env req w).response = some (200, [.obj [("response", .str t)]])) ∧
      (∀ (flags : Flags) (env : Env) (w : World), flags.stubbedFlagVal = true →
        (serveGenerate flags env helloRequest w).response =
          some (200, [.obj [("response", .str "I'm a local AI model, running offline!")]])) := by
  have key : ∀ (flags : Flags) (env : Env) (req : HttpRequest) (w : World) (p t : String),
      bindJSON req.Body = .ok ⟨p⟩ → (GetLlmResponse flags env p w).1 = .ok (t, none) →
      (serveGenerate flags env req w).response =
        some (200, [.obj [("response", .str t)]]) := by
    intro flags env req w p t hb ha
    rcases hg : GetLlmResponse flags env p (worldAtAdapterCall flags env req p w) with ⟨r, w1⟩
    have hr : r = .ok (t, none) := by
      rw [← ha, ← GetLlmResponse_fst flags env p w (worldAtAdapterCall flags env req p w), hg]
    subst hr
    rw [serve_adapter_ok flags env req w w1 p t hb hg]
    rfl
  refine ⟨key, fun flags env w hs => ?_⟩
  exact key flags env helloRequest w "hello" _ rfl (congrArg Prod.fst
    (GetLlmResponse_of_stubbed flags env "hello" w hs))

theorem generate_success_response_witness :
    (bindJSON helloRequest.Body = .ok ⟨"hello"⟩ ∧
        (GetLlmResponse defaultFlags upstreamUpEnv "hello" freshWorld).1 = .ok ("Hi there", none) ∧
        (serveGenerate defaultFlags upstreamUpEnv helloRequest freshWorld).response =
          some (200, [.obj [("response", .str "Hi there")]])) ∧
      (stubbedFlags.stubbedFlagVal = true ∧
        (serveGenerate stubbedFlags upstreamDownEnv helloRequest freshWorld).response =
          some (200, [.obj [("response", .str "I'm a local AI model, running offline!")]])) :=
  ⟨⟨rfl, rfl, generate_success_response.1 defaultFlags upstreamUpEnv helloRequest freshWorld
      "hello" "Hi there" rfl rfl⟩,
    ⟨rfl, generate_success_response.2 stubbedFlags upstreamDownEnv freshWorld rfl⟩⟩

/-- C6: for every successful call (the body binds with prompt `p`, the adapter
returns text `t` without error, and both runs of the file logger open and write
the file without error), the log file is its previous content followed by
exactly two records: first the request record with `endpoint`, `prompt` and
`timestamp`, then the response record with `endpoint`, `response` and
`timestamp`, both with the request path as endpoint; no other file changes. -/
theorem generate_success_log (flags : Flags) (env : Env) (req : HttpRequest) (w : World)
    (p t : String)
    (hb : bindJSON req.Body = .ok ⟨p⟩)
    (ha : (GetLlmResponse flags env p w).1 = .ok (t, none))
    (ho₁ : (env.fileIO w.fileOps).openFile = none)
    (hw₁ : (env.fileIO w.fileOps).writeString = none)
    (ho₂ : (env.fileIO (w.fileOps + 1)).openFile = none)
    (hw₂ : (env.fileIO (w.fileOps + 1)).writeString = none) :
    (serveGenerate flags env req w).world.files flags.logFileFlagVal =
        w.files flags.logFileFlagVal ++
          [.obj [("endpoint", .str req.Path), ("prompt", .str p),
              ("timestamp", .num (env.now w.clockReads) 0)],
            .obj [("endpoint", .str req.Path), ("response", .str t),
              ("timestamp", .num (env.now (w.clockReads + 1)) 0)]] ∧
      ∀ f, f ≠ flags.logFileFlagVal → (serveGenerate flags env req w).world.files f = w.files f := by
  rcases hg : GetLlmResponse flags env p (worldAtAdapterCall flags env req p w) with ⟨r, w1⟩
  have hr : r = .ok (t, none) := by
    rw [← ha, ← GetLlmResponse_fst flags env p w (worldAtAdapterCall flags env req p w), hg]
  subst hr
  have hmid := LogToFile_counters env flags.logFileFlagVal
    [("endpoint", Json.str req.Path), ("timestamp", Json.num (env.now w.clockReads) 0),
      ("prompt", Json.str p)] { w with clockReads := w.clockReads + 1 }
  have hmidf := LogToFile_success env flags.logFileFlagVal
    [("endpoint", Json.str req.Path), ("timestamp", Json.num (env.now w.clockReads) 0),
      ("prompt", Json.str p)] { w with clockReads := w.clockReads + 1 } ho₁ hw₁
  have hw1 : w1 = { worldAtAdapterCall flags env req p w with
      adapterCalls := (worldAtAdapterCall flags env req p w).adapterCalls ++ [p],
      chatRequests := if flags.stubbedFlagVal = true
        then (worldAtAdapterCall flags env req p w).chatRequests
        else (worldAtAdapterCall flags env req p w).chatRequests ++
          [⟨flags.llmAPIBaseUrlFlagVal, flags.llmModelFlagVal, [⟨p⟩]⟩] } := by
    have h2 := GetLlmResponse_snd flags env p (worldAtAdapterCall flags env req p w)
    rw [hg] at h2
    exact h2
  rw [serve_adapter_ok flags env req w w1 p t hb hg]
  have hfinal := LogToFile_success env flags.logFileFlagVal
    [("endpoint", Json.str req.Path), ("timestamp", Json.num (env.now w1.clockReads) 0),
      ("response", Json.str t)] { w1 with clockReads := w1.clockReads + 1 }
    (by rw [hw1]; simpa [worldAtAdapterCall, hmid.1] using ho₂)
    (by rw [hw1]; simpa [worldAtAdapterCall, hmid.1] using hw₂)
  have hclock : w1.clockReads = w.clockReads + 1 := by
    rw [hw1]; simp [worldAtAdapterCall, hmid.2.1]
  have hfiles : w1.files = appendLine w.files flags.logFileFlagVal
      (.obj [("endpoint", .str req.Path), ("prompt", .str p),
        ("timestamp", .num (env.now w.clockReads) 0)]) := by
    rw [hw1]
    simp only [worldAtAdapterCall]
    rw [hmidf]
    rfl
  simp only [logResponse, World.timeNowUnix]
  rw [hfinal, hclock]
  simp only [hfiles]
  constructor
  · simp [appendLine]
    rfl
  · intro f hf
    simp [appendLine, hf]

theorem generate_success_log_witness :
    (bindJSON helloRequest.Body = .ok ⟨"hello"⟩ ∧
        (GetLlmResponse defaultFlags upstreamUpEnv "hello" freshWorld).1 = .ok ("Hi there", none) ∧
        (upstreamUpEnv.fileIO freshWorld.fileOps).openFile = none ∧
        (upstreamUpEnv.fileIO freshWorld.fileOps).writeString = none ∧
        (upstreamUpEnv.fileIO (freshWorld.fileOps + 1)).openFile = none ∧
        (upstreamUpEnv.fileIO (freshWorld.fileOps + 1)).writeString = none) ∧
      (serveGenerate defaultFlags upstreamUpEnv helloRequest freshWorld).world.files
          defaultFlags.logFileFlagVal =
        freshWorld.files defaultFlags.logFileFlagVal ++
          [.obj [("endpoint", .str helloRequest.Path), ("prompt", .str "hello"),
              ("timestamp", .num (upstreamUpEnv.now freshWorld.clockReads) 0)],
            .obj [("endpoint", .str helloRequest.Path), ("response", .str "Hi there"),
              ("timestamp", .num (upstreamUpEnv.now (freshWorld.clockReads + 1)) 0)]] :=
  ⟨⟨rfl, rfl, rfl, rfl, rfl, rfl⟩,
    (generate_success_log defaultFlags upstreamUpEnv helloRequest freshWorld "hello" "Hi there"
      rfl rfl rfl rfl rfl rfl).1⟩

/-! ### Adapter errors (C1, C5, C10) -/

/-- C5: for every request whose body binds and every two runs in which the
adapter fails, with errors `e₁` and `e₂`, the two responses (status and body)
are the same: the response is one fixed value, status 400 with two fixed
documents, whatever the error, so nothing of the error text reaches it. -/
theorem adapter_error_response_independent (flags₁ flags₂ : Flags) (env₁ env₂ : Env)
    (req : HttpRequest) (w₁ w₂ : World) (p t₁ t₂ : String) (e₁ e₂ : Error)
    (hb : bindJSON req.Body = .ok ⟨p⟩)
    (h₁ : (GetLlmResponse flags₁ env₁ p w₁).1 = .ok (t₁, some e₁))
    (h₂ : (GetLlmResponse flags₂ env₂ p w₂).1 = .ok (t₂, some e₂)) :
    (serveGenerate flags₁ env₁ req w₁).response = (serveGenerate flags₂ env₂ req w₂).response ∧
      (serveGenerate flags₁ env₁ req w₁).response =
        some (400, [.str "Something went wrong", .obj [("response", .str "")]]) := by
  have key : ∀ (flags : Flags) (env : Env) (w : World) (t : String) (e : Error),
      (GetLlmResponse flags env p w).1 = .ok (t, some e) →
      (serveGenerate flags env req w).response =
        some (400, [.str "Something went wrong", .obj [("response", .str "")]]) := by
    intro flags env w t e ha
    rcases hg : GetLlmResponse flags env p (worldAtAdapterCall flags env req p w) with ⟨r, w1⟩
    have hr : r = .ok (t, some e) := by
      rw [← ha, ← GetLlmResponse_fst flags env p w (worldAtAdapterCall flags env req p w), hg]
    subst hr
    have ht : t = "" := GetLlmResponse_err_text flags env p w t e ha
    subst ht
    rw [serve_adapter_err flags env req w w1 p "" e hb hg]
    rfl
  exact ⟨by rw [key flags₁ env₁ w₁ t₁ e₁ h₁, key flags₂ env₂ w₂ t₂ e₂ h₂],
    key flags₁ env₁ w₁ t₁ e₁ h₁⟩

theorem adapter_error_response_independent_witness :
    (bindJSON helloRequest.Body = .ok ⟨"hello"⟩ ∧
        (GetLlmResponse defaultFlags upstreamDownEnv "hello" freshWorld).1 =
          .ok ("", some "dial tcp 127.0.0.1:11434: connect: connection refused") ∧
        (GetLlmResponse defaultFlags upstreamEmptyEnv "hello" freshWorld).1 =
          .ok ("", some "no choices in response")) ∧
      (serveGenerate defaultFlags upstreamDownEnv helloRequest freshWorld).response =
        (serveGenerate defaultFlags upstreamEmptyEnv helloRequest freshWorld).response :=
  ⟨⟨rfl, rfl, rfl⟩,
    (adapter_error_response_independent defaultFlags defaultFlags upstreamDownEnv upstreamEmptyEnv
      helloRequest freshWorld freshWorld "hello" "" ""
      "dial tcp 127.0.0.1:11434: connect: connection refused" "no choices in response"
      rfl rfl rfl).1⟩

/-- C1 (the code at the failing input): with stubbed mode off and the upstream
service down, the body `{"prompt":"hello"}` is answered with status 400 and a
body of two documents, the string `"Something went wrong"` followed by
`{"response":""}`: the handler goes on after the error response and renders the
success response as well. -/
theorem adapter_error_response_two_documents :
    (serveGenerate defaultFlags upstreamDownEnv helloRequest freshWorld).response =
        some (400, [.str "Something went wrong", .obj [("response", .str "")]]) ∧
      (serveGenerate defaultFlags upstreamDownEnv helloRequest freshWorld).response ≠
        some (400, [.str "Something went wrong"]) := by
  have h : (serveGenerate defaultFlags upstreamDownEnv helloRequest freshWorld).response =
      some (400, [.str "Something went wrong", .obj [("response", .str "")]]) := rfl
  refine ⟨h, ?_⟩
  rw [h]
  simp

/-- C10 (the code at the failing input): with stubbed mode off and the upstream
service down, serving the body `{"prompt":"hello"}` on an empty log file leaves
two records in it: the request record, and a response record with an empty
`response`, written by the handler after the adapter error. -/
theorem adapter_error_logs_response_record :
    (serveGenerate defaultFlags upstreamDownEnv helloRequest freshWorld).world.files
        "./logs/log.jsonl" =
      [.obj [("endpoint", .str "/generate"), ("prompt", .str "hello"),
          ("timestamp", .num 1700000000 0)],
        .obj [("endpoint", .str "/generate"), ("response", .str ""),
          ("timestamp", .num 1700000001 0)]] := by
  rfl

/-! ### Fuel -/

/-- The handler either panics or aborts the chain. -/
theorem generateHandler_index (flags : Flags) (env : Env) (next : State → State) (s : State) :
    (generateHandler flags env next s).panicked.isSome = true ∨
      (generateHandler flags env next s).c.index = abortIndex := by
  unfold generateHandler
  rcases hbind : s.c.ShouldBindBodyWith with ⟨bound, c⟩
  rcases bound with err | rb
  · right; simp [Context.AbortWithStatusJSON, Context.Abort, Context.JSON, Context.Status]
    split <;> rfl
  · simp only
    rcases hg : GetLlmResponse flags env rb.Prompt s.world with ⟨r, w1⟩
    rcases r with msg | ⟨t, _ | e⟩
    · left; simp
    · right; simp [Context.AbortWithStatusJSON, Context.Abort, Context.JSON, Context.Status]
      split <;> rfl
    · right; simp [Context.AbortWithStatusJSON, Context.Abort, Context.JSON, Context.Status]
      split <;> rfl

/-- Past the last handler the loop does nothing. -/
theorem nextLoop_past (flags : Flags) (env : Env) (k : Nat) (s : State) (h : 2 ≤ s.c.index) :
    nextLoop (generateRoute flags env) k s = s := by
  cases k with
  | zero => rfl
  | succ k =>
    have h0 : ¬ s.c.index < 0 := by omega
    have h2 : 2 ≤ s.c.index.toNat := by omega
    have hg : (generateRoute flags env)[s.c.index.toNat]? = none := by
      apply List.getElem?_eq_none
      simpa [generateRoute] using h2
    simp [nextLoop, h0, hg]

/-- One step of the loop. -/
theorem nextLoop_succ (handlers : List HandlerFunc) (k : Nat) (s : State) :
    nextLoop handlers (k + 1) s =
      if s.c.index < 0 then s
      else
        match handlers[s.c.index.toNat]? with
        | none => s
        | some h =>
          if (h (fun s2 => nextLoop handlers k { s2 with c.index := s2.c.index + 1 })
              s).panicked.isSome then
            h (fun s2 => nextLoop handlers k { s2 with c.index := s2.c.index + 1 }) s
          else
            nextLoop handlers k
              { h (fun s2 => nextLoop handlers k { s2 with c.index := s2.c.index + 1 }) s with
                c.index := (h (fun s2 => nextLoop handlers k
                  { s2 with c.index := s2.c.index + 1 }) s).c.index + 1 } := by
  rfl

/-- From the handler on, one unit of fuel is as good as any. -/
theorem nextLoop_handler (flags : Flags) (env : Env) (k : Nat) (s : State)
    (h1 : s.c.index = 1) :
    nextLoop (generateRoute flags env) (k + 1) s = nextLoop (generateRoute flags env) 1 s := by
  have hg : (generateRoute flags env)[s.c.index.toNat]? = some (generateHandler flags env) := by
    rw [h1]; rfl
  have h0 : ¬ s.c.index < 0 := by omega
  rw [nextLoop_succ, nextLoop_succ _ 0]
  simp only [h0, hg, if_false]
  generalize (fun s2 : State =>
    nextLoop (generateRoute flags env) k { s2 with c.index := s2.c.index + 1 }) = nk
  generalize (fun s2 : State =>
    nextLoop (generateRoute flags env) 0 { s2 with c.index := s2.c.index + 1 }) = n0
  have e : generateHandler flags env nk s = generateHandler flags env n0 s := rfl
  rw [e]
  by_cases hp : (generateHandler flags env n0 s).panicked.isSome = true
  · simp only [hp, if_true]
  · simp only [hp, if_false]
    rcases generateHandler_index flags env n0 s with hp2 | hi
    · exact absurd hp2 hp
    · rw [nextLoop_past flags env k _ (by simp [hi, abortIndex])]
      rfl

/-- The middleware only uses `c.Next()` on a state with the index it was
started with. -/
theorem middleware_next_congr (env : Env) (filename : String) (next₁ next₂ : State → State)
    (s : State) (h : ∀ s2 : State, s2.c.index = s.c.index → next₁ s2 = next₂ s2) :
    RequestLoggerMiddleware env filename next₁ s = RequestLoggerMiddleware env filename next₂ s := by
  unfold RequestLoggerMiddleware
  rcases hbind : s.c.ShouldBindBodyWith with ⟨bound, c⟩
  have hc : c.index = s.c.index := by
    unfold Context.ShouldBindBodyWith at hbind
    split at hbind
    · cases hbind; rfl
    · cases hbind; rfl
  rcases bound with err | rb
  · rfl
  · exact h _ hc

/-- After the middleware, run at index 0 with one unit of fuel left for
`c.Next()`, the state has panicked or its index is not negative. -/
theorem middleware_index (flags : Flags) (env : Env) (s : State) (h0 : s.c.index = 0) :
    (RequestLoggerMiddleware env flags.logFileFlagVal
        (fun s2 => nextLoop (generateRoute flags env) 1 { s2 with c.index := s2.c.index + 1 })
        s).panicked.isSome = true ∨
      0 ≤ (RequestLoggerMiddleware env flags.logFileFlagVal
        (fun s2 => nextLoop (generateRoute flags env) 1 { s2 with c.index := s2.c.index + 1 })
        s).c.index := by
  unfold RequestLoggerMiddleware
  rcases hbind : s.c.ShouldBindBodyWith with ⟨bound, c⟩
  have hc : c.index = s.c.index := by
    unfold Context.ShouldBindBodyWith at hbind
    split at hbind
    · cases hbind; rfl
    · cases hbind; rfl
  rcases bound with err | rb
  · right
    simp [hc, h0]
  · simp only
    rw [nextLoop_succ]
    simp only [hc, h0]
    have hg : (generateRoute flags env)[((0 : Int) + 1).toNat]? =
        some (generateHandler flags env) := rfl
    simp only [hg]
    generalize (fun s2 : State =>
      nextLoop (generateRoute flags env) 0 { s2 with c.index := s2.c.index + 1 }) = n0
    split
    · omega
    · split
      · left; assumption
      · rename_i hp
        rcases generateHandler_index flags env n0 _ with hp2 | hi
        · exact absurd hp2 hp
        · right
          show 0 ≤ (generateHandler flags env n0 _).c.index + 1
          rw [hi]
          decide

/-- The chain of `POST /generate` has ended after two units of fuel: more fuel
gives the same final state. -/
theorem Next_fuel (flags : Flags) (env : Env) (s : State) (n : Nat) (hi : s.c.index = -1) :
    Context.Next (generateRoute flags env) (n + 2) s =
      Context.Next (generateRoute flags env) 2 s := by
  unfold Context.Next
  have hg : (generateRoute flags env)[({ s with c.index := s.c.index + 1 } : State).c.index.toNat]? =
      some (RequestLoggerMiddleware env flags.logFileFlagVal) := by
    simp [hi, generateRoute]
  have h0 : ¬ ({ s with c.index := s.c.index + 1 } : State).c.index < 0 := by simp [hi]
  have hz : ({ s with c.index := s.c.index + 1 } : State).c.index = 0 := by simp [hi]
  rw [nextLoop_succ, nextLoop_succ _ 1]
  simp only [h0, hg, if_false]
  have hm := middleware_next_congr env flags.logFileFlagVal
    (fun s2 => nextLoop (generateRoute flags env) (n + 1) { s2 with c.index := s2.c.index + 1 })
    (fun s2 => nextLoop (generateRoute flags env) 1 { s2 with c.index := s2.c.index + 1 })
    { s with c.index := s.c.index + 1 }
    (fun s2 h2 => nextLoop_handler flags env n _ (by simp [h2, hi]))
  have hidx := middleware_index flags env { s with c.index := s.c.index + 1 } hz
  simp only at hm hidx
  rw [hm]
  generalize RequestLoggerMiddleware env flags.logFileFlagVal
    (fun s2 => nextLoop (generateRoute flags env) 1 { s2 with c.index := s2.c.index + 1 })
    { s with c.index := s.c.index + 1 } = M at hidx ⊢
  by_cases hp : M.panicked.isSome = true
  · simp only [hp, if_true]
  · simp only [hp, if_false]
    rcases hidx with hp2 | hge
    · exact absurd hp2 hp
    · by_cases h1 : M.c.index = 0
      · exact nextLoop_handler flags env n _ (by simp [h1])
      · rw [nextLoop_past flags env (n + 1) _ (by simp; omega),
          nextLoop_past flags env 1 _ (by simp; omega)]

/-- The final state `serveGenerate` computes with its two units of fuel is the
one every larger amount of fuel gives. -/
theorem serveGenerate_fuel (flags : Flags) (env : Env) (req : HttpRequest) (w : World)
    (n : Nat) :
    serveGenerate flags env req w =
      if (Context.Next (generateRoute flags env) (n + 2)
          { c := Context.reset req, world := w, panicked := none }).panicked.isSome then
        Context.Next (generateRoute flags env) (n + 2)
          { c := Context.reset req, world := w, panicked := none }
      else
        { Context.Next (generateRoute flags env) (n + 2)
            { c := Context.reset req, world := w, panicked := none } with
          c.Writer := (Context.Next (generateRoute flags env) (n + 2)
            { c := Context.reset req, world := w, panicked := none }).c.Writer.WriteHeaderNow } := by
  rw [Next_fuel flags env _ n rfl]
  rfl

end MiniVault
